import Mathlib

/-!
Verification of the CareerAssist asynchronous job control plane.

This file gives a shallow embedding, in Lean, of the orchestrator core of the
repository (src/backend/orchestrator/lambda_handler.py, agent.py,
observability.py and the jobs-table operations of
src/backend/database/src/models.py), and proves or refutes the properties the
specification states about it.

Python values that cross the JSON boundary are modelled by the inductive type
`Val`; Python truthiness, `dict.get` and key assignment are modelled by
`Val.truthy`, `Val.get`/`Val.getD` and `Val.set`.  External effects (the
Lambda invocations of the specialist workers and `json.loads`) are parameters
of the embedded functions, so every definition is executable on concrete
inputs.
-/

namespace CareerAssist

/-- JSON-like values exchanged between the orchestrator, the specialists and
the jobs table: Python `None`, booleans, integers, strings, lists and
(insertion-ordered) dictionaries. -/
inductive Val where
  | null : Val
  | bool (b : Bool) : Val
  | int (n : Int) : Val
  | str (s : String) : Val
  | list (xs : List Val) : Val
  | dict (kvs : List (String × Val)) : Val
deriving Repr

/-- Python truthiness of a `Val`: `None`, `False`, `0`, `""`, `[]` and `{}`
are falsy, everything else is truthy. -/
def Val.truthy : Val → Bool
  | .null => false
  | .bool b => b
  | .int n => n != 0
  | .str s => !s.isEmpty
  | .list xs => !xs.isEmpty
  | .dict kvs => !kvs.isEmpty

/-- First binding of key `k` in an association list (Python dictionaries hold
each key once, so this is ordinary dictionary lookup). -/
def lookupKey (k : String) : List (String × Val) → Option Val
  | [] => none
  | (k1, v) :: rest => if k1 == k then some v else lookupKey k rest

/-- Python `d.get(k, dflt)` on a dictionary value. -/
def Val.getD (v : Val) (k : String) (dflt : Val) : Val :=
  match v with
  | .dict kvs => (lookupKey k kvs).getD dflt
  | _ => dflt

/-- Python `d.get(k)` on a dictionary value: `None` when the key is missing. -/
def Val.get (v : Val) (k : String) : Val :=
  v.getD k .null

/-- Python `d[k] = x` on an association list: replace the first binding of `k`
in place, otherwise append the new binding (insertion order). -/
def setPairs (k : String) (x : Val) : List (String × Val) → List (String × Val)
  | [] => [(k, x)]
  | (k1, v1) :: rest => if k1 == k then (k1, x) :: rest else (k1, v1) :: setPairs k x rest

/-- Python `d[k] = x` on a dictionary value. -/
def Val.set (v : Val) (k : String) (x : Val) : Val :=
  match v with
  | .dict kvs => .dict (setPairs k x kvs)
  | w => w

/-- Whether a value is a dictionary. -/
def Val.isDict : Val → Bool
  | .dict _ => true
  | _ => false

/-- Embedding of `truncate_for_trace` (observability.py, lines 83-91):
strings longer than `maxLength` are cut to their first `maxLength` characters
and suffixed with `"... [truncated, total N chars]"` where `N` is the original
length; dictionaries are truncated valuewise, keys kept; lists keep at most
their first 10 elements, each truncated; all other values are unchanged. -/
def truncate_for_trace (maxLength : Nat) : Val → Val
  | .null => .null
  | .bool b => .bool b
  | .int n => .int n
  | .str s =>
    if maxLength < s.length then
      .str (s.take maxLength ++ "... [truncated, total " ++ toString s.length ++ " chars]")
    else .str s
  | .list xs => .list (truncList maxLength 10 xs)
  | .dict kvs => .dict (truncDict maxLength kvs)
where
  /-- The list comprehension `[truncate_for_trace(item, max_length) for item in data[:10]]`. -/
  truncList (maxLength : Nat) : Nat → List Val → List Val
    | _, [] => []
    | 0, _ => []
    | n + 1, v :: vs => truncate_for_trace maxLength v :: truncList maxLength n vs
  /-- The dict comprehension `{k: truncate_for_trace(v, max_length) for k, v in data.items()}`. -/
  truncDict (maxLength : Nat) : List (String × Val) → List (String × Val)
    | [] => []
    | (k, v) :: kvs => (k, truncate_for_trace maxLength v) :: truncDict maxLength kvs

/-- A raised Python exception, as far as the control plane can observe it:
its message (`str(e)`) and whether it is a `litellm RateLimitError` (the only
exception class the tenacity decorator on `run_orchestrator` retries). -/
structure PyExc where
  msg : String
  isRateLimit : Bool
deriving Repr, DecidableEq

/-- The trace context produced by `observe` (observability.py): the
deterministic trace identifier (seeded from the job id) and the optional
continuation span.  `none` at use sites models an unconfigured trace sink. -/
structure TraceCtx where
  trace_id : String
  span_id : Option String
deriving Repr, DecidableEq

/-- Embedding of `get_trace_context_for_propagation` (observability.py, lines
318-339): the dictionary `{trace_id, parent_span_id}` serialized into the
worker request, with the trace id standing in as parent when no span exists. -/
def get_trace_context_for_propagation : Option TraceCtx → List (String × Val)
  | none => []
  | some tc =>
    match tc.span_id with
    | some sid => [("trace_id", .str tc.trace_id), ("parent_span_id", .str sid)]
    | none => [("trace_id", .str tc.trace_id), ("parent_span_id", .str tc.trace_id)]

/-- A span as emitted to the trace sink by `log_agent_invocation`. -/
structure Span where
  name : String
  input : Val
  output : Option Val
  error : Option Val
  level_error : Bool
  has_duration : Bool
deriving Repr

/-- Embedding of `log_agent_invocation` (observability.py, lines 202-248):
no-op when the trace context is absent; otherwise emits one span named
`invoke-<agent>`, with input and output truncated by `truncate_for_trace`,
output dropped when falsy, and level ERROR exactly when an error is given. -/
def log_agent_invocation (trace_context : Option TraceCtx) (agent_name : String)
    (input_payload : Val) (output_payload : Option Val) (error : Option Val)
    (duration_passed : Bool) : Option Span :=
  match trace_context with
  | none => none
  | some _ =>
    some {
      name := "invoke-" ++ agent_name
      input := truncate_for_trace 2000 input_payload
      output := match output_payload with
        | some v => if v.truthy then some (truncate_for_trace 2000 v) else none
        | none => none
      error := error
      level_error := match error with
        | some e => e.truthy
        | none => false
      has_duration := duration_passed }

/-- The external world as `invoke_lambda_agent` sees it: the Lambda transport
(`boto3 invoke` plus reading and JSON-decoding the response payload, returning
the decoded value or whatever exception was raised along the way),
`json.loads` for string bodies, and the `MOCK_LAMBDAS` flag. -/
structure Env where
  invoke : String → Val → Except PyExc Val
  jsonParse : String → Except PyExc Val
  mock : Bool

/-- The trace-propagation preamble of `invoke_lambda_agent` (agent.py, lines
54-59): when a truthy trace context yields a non-empty propagation
dictionary, it is assigned into the payload under `_trace_context`. -/
def add_trace_context (trace_context : Option TraceCtx)
    (payload0 : List (String × Val)) : List (String × Val) :=
  match trace_context with
  | some tc =>
    let pc := get_trace_context_for_propagation (some tc)
    if pc.isEmpty then payload0 else setPairs "_trace_context" (.dict pc) payload0
  | none => payload0

/-- The response unwrapping of `invoke_lambda_agent` (agent.py, lines 86-95):
a decoded response carrying a `body` field is unwrapped, a string body going
through `json.loads` (which may raise). -/
def decode_response (jsonParse : String → Except PyExc Val) (resp : Val) :
    Except PyExc Val :=
  match resp with
  | .dict kvs =>
    match lookupKey "body" kvs with
    | some (.str s) => jsonParse s
    | some b => .ok b
    | none => .ok resp
  | _ => .ok resp

/-- The result-and-error classification of `invoke_lambda_agent` (agent.py,
lines 97-110): an exception anywhere in the `try` becomes
`{success: false, error: str(e)}`; a response whose `success` field is falsy
keeps the response as result and records its `error` field; a decoded
non-dictionary raises `AttributeError` at `result.get`, caught by the same
`except` clause (its message text is not modelled). -/
def classify_result : Except PyExc Val → Val × Option Val
  | .error e => (.dict [("success", .bool false), ("error", .str e.msg)], some (.str e.msg))
  | .ok r =>
    match r with
    | .dict kvs =>
      if ((lookupKey "success" kvs).getD (.bool true)).truthy then (r, none)
      else (r, some ((lookupKey "error" kvs).getD (.str "Unknown error in response")))
    | _ =>
      (.dict [("success", .bool false), ("error", .str "AttributeError")],
       some (.str "AttributeError"))

/-- Embedding of `invoke_lambda_agent` (agent.py, lines 46-122).  The trace
context, when present, is serialized into the payload; in mock mode a mock
result is returned and logged; otherwise the Lambda is invoked, its response
decoded and classified, and — as by the `finally` block — the invocation is
logged on success and failure alike.  A dictionary is always returned, never
an exception. -/
def invoke_lambda_agent (env : Env) (agent_name function_name : String)
    (payload0 : List (String × Val)) (trace_context : Option TraceCtx) :
    Val × Option Span :=
  let payload := add_trace_context trace_context payload0
  if env.mock then
    (.dict [("success", .bool true), ("mock", .bool true), ("agent", .str agent_name)],
     log_agent_invocation trace_context agent_name
       (.dict [("mock", .bool true), ("keys", .list (payload.map fun kv => .str kv.1))])
       (some (.dict [("success", .bool true), ("mock", .bool true)])) none false)
  else
    let resultAndError :=
      classify_result
        (match env.invoke function_name (.dict payload) with
         | .error e => .error e
         | .ok resp => decode_response env.jsonParse resp)
    let result := resultAndError.1
    (result,
     log_agent_invocation trace_context agent_name
       (truncate_for_trace 2000 (.dict payload))
       (if result.truthy then some (truncate_for_trace 2000 result) else none)
       resultAndError.2 true)

/-- One Lambda invocation performed by the orchestrator, as observed from
outside: the agent invoked, the dictionary `invoke_lambda_agent` returned,
and the span sent to the trace sink (absent when the sink is unconfigured). -/
structure Invocation where
  agent : String
  result : Val
  span : Option Span
deriving Repr

/-- Job status values of the jobs table. -/
inductive JobStatus where
  | pending
  | processing
  | completed
  | failed
deriving Repr, DecidableEq

/-- Whether a status is terminal. -/
def JobStatus.isTerminal : JobStatus → Bool
  | .completed => true
  | .failed => true
  | _ => false

/-- One row of the jobs table (src/backend/database/src/models.py, class
`Jobs`), restricted to the columns the control plane touches.  Timestamps are
abstract instants (`Nat`). -/
structure Job where
  job_type : String
  status : JobStatus
  input_data : Val
  extractor_payload : Option Val
  analyzer_payload : Option Val
  interviewer_payload : Option Val
  charter_payload : Option Val
  summary_payload : Option Val
  error_message : Option String
  progress_percentage : Nat
  started_at : Option Nat
  completed_at : Option Nat
deriving Repr

/-- Embedding of `Jobs.update_status` (models.py, lines 450-465): sets the
status; stamps `started_at` when the target is `processing` and
`completed_at` when it is `completed` or `failed`; records the error message
when one is given (Python truthiness: an empty string is skipped) and the
progress when it is not `None`. -/
def Jobs.update_status (now : Nat) (status : JobStatus) (error_message : Option String)
    (progress : Option Nat) (j : Job) : Job :=
  let j1 := { j with status := status }
  let j2 :=
    if status = .processing then { j1 with started_at := some now }
    else if status = .completed ∨ status = .failed then { j1 with completed_at := some now }
    else j1
  let j3 :=
    match error_message with
    | some s => if s.isEmpty then j2 else { j2 with error_message := some s }
    | none => j2
  match progress with
  | some p => { j3 with progress_percentage := p }
  | none => j3

/-- The orchestrator's raw `status → processing` update
(lambda_handler.py, line 104): `db.client.update('jobs', {'status':
'processing'}, ...)` — the status column only, no timestamp. -/
def orch_set_processing (j : Job) : Job :=
  { j with status := .processing }

/-- The orchestrator's raw `status → completed` update
(lambda_handler.py, line 130): the status column only, no timestamp. -/
def orch_set_completed (j : Job) : Job :=
  { j with status := .completed }

/-- The orchestrator's raw failure update (lambda_handler.py, line 139):
status and error message, no timestamp. -/
def orch_set_failed (e : String) (j : Job) : Job :=
  { j with status := .failed, error_message := some e }

/-- Embedding of `OrchestratorContext` (agent.py, lines 36-43).  The database
handle is modelled by threading the `Job` row explicitly, so only the data
fields appear here. -/
structure OrchestratorContext where
  job_id : String
  job_type : String
  input_data : Val
  trace_context : Option TraceCtx
deriving Repr

/-- Default of the `EXTRACTOR_FUNCTION` environment variable (agent.py). -/
def EXTRACTOR_FUNCTION : String := "career-extractor"

/-- Default of the `ANALYZER_FUNCTION` environment variable (agent.py). -/
def ANALYZER_FUNCTION : String := "career-analyzer"

/-- Default of the `CHARTER_FUNCTION` environment variable (agent.py). -/
def CHARTER_FUNCTION : String := "career-charter"

/-- Default of the `INTERVIEWER_FUNCTION` environment variable (agent.py). -/
def INTERVIEWER_FUNCTION : String := "career-interviewer"

/-- Result of one orchestrator tool call: the (mutated) in-memory context,
the (mutated) job row, the string handed back to the reasoning agent, and
the Lambda invocations performed. -/
structure ToolResult where
  ctx : OrchestratorContext
  job : Job
  message : String
  calls : List Invocation
deriving Repr

/-- The job-branch persistence of `invoke_extractor` (agent.py, lines
196-207): the stored `extractor_payload` is re-read, JSON-decoded when it
comes back as a string, and the new `job_profile` is assigned into it before
writing back.  `none` means the Python raised inside the `try` (a JSON decode
failure, or item assignment on a non-dictionary) and the warning path skipped
the write.  An absent slot is read back through the Data API client
(client.py, which is not under src/); modelled from the spec: `read_payload
(id, slot) → value | absent` (§4.1), an absent slot giving the source's
`.get('extractor_payload', {})` default `{}`, into which the new key is
assigned. -/
def merge_job_profile (jsonParse : String → Except PyExc Val) (profile : Val) :
    Option Val → Option Val
  | none => some (.dict [("job_profile", profile)])
  | some (.str s) =>
    match jsonParse s with
    | .ok (.dict kvs) => some (.dict (setPairs "job_profile" profile kvs))
    | _ => none
  | some (.dict kvs) => some (.dict (setPairs "job_profile" profile kvs))
  | some _ => none

/-- Embedding of the tool `invoke_extractor` (agent.py, lines 146-210).  On a
truthy `success` the returned profile is stored in the in-memory context; the
`cv` branch persists `extractor_payload = {cv_profile: profile}` wholesale,
while the `job` branch merges `job_profile` into the stored slot. -/
def invoke_extractor (env : Env) (ctx : OrchestratorContext) (j : Job)
    (extraction_type : String) (text : String) : ToolResult :=
  let rs := invoke_lambda_agent env "Extractor" EXTRACTOR_FUNCTION
    [("type", .str extraction_type), ("text", .str text), ("job_id", .str ctx.job_id)]
    ctx.trace_context
  let result := rs.1
  let call : Invocation := { agent := "Extractor", result := result, span := rs.2 }
  if (result.get "success").truthy then
    let profile := result.getD "profile" (.dict [])
    if extraction_type == "cv" then
      { ctx := { ctx with input_data := ctx.input_data.set "cv_profile" profile }
        job := { j with extractor_payload := some (.dict [("cv_profile", profile)]) }
        message := "CV extracted"
        calls := [call] }
    else
      { ctx := { ctx with input_data := ctx.input_data.set "job_profile" profile }
        job :=
          match merge_job_profile env.jsonParse profile j.extractor_payload with
          | some newSlot => { j with extractor_payload := some newSlot }
          | none => j
        message := "Job extracted"
        calls := [call] }
  else
    { ctx := ctx, job := j, message := "Extraction failed", calls := [call] }

/-- Embedding of the tool `invoke_analyzer` (agent.py, lines 213-291).  On a
truthy `success` a truthy `gap_analysis` is stored in the in-memory context,
the whole response is persisted as-is into `analyzer_payload`, and a truthy
`cv_rewrite` is additionally persisted into `summary_payload`; a missing
`cv_rewrite` (with or without a `cv_rewrite_error`) only logs a warning. -/
def invoke_analyzer (env : Env) (ctx : OrchestratorContext) (j : Job)
    (analysis_type : String) : ToolResult :=
  let rs := invoke_lambda_agent env "Analyzer" ANALYZER_FUNCTION
    [("type", .str analysis_type), ("job_id", .str ctx.job_id),
     ("cv_profile", ctx.input_data.get "cv_profile"),
     ("job_profile", ctx.input_data.get "job_profile"),
     ("gap_analysis", ctx.input_data.get "gap_analysis")]
    ctx.trace_context
  let result := rs.1
  let call : Invocation := { agent := "Analyzer", result := result, span := rs.2 }
  if (result.get "success").truthy then
    let gap := result.getD "gap_analysis" (.dict [])
    let ctx1 :=
      if gap.truthy then { ctx with input_data := ctx.input_data.set "gap_analysis" gap }
      else ctx
    let cv_rewrite := result.get "cv_rewrite"
    { ctx := ctx1
      job := { j with
        analyzer_payload := some result
        summary_payload := if cv_rewrite.truthy then some cv_rewrite else j.summary_payload }
      message := "analysis complete"
      calls := [call] }
  else
    { ctx := ctx, job := j, message := "Analysis failed", calls := [call] }

/-- Embedding of the tool `invoke_interviewer` (agent.py, lines 294-342).  On
a truthy `success` the whole response is persisted into
`interviewer_payload`. -/
def invoke_interviewer (env : Env) (ctx : OrchestratorContext) (j : Job) : ToolResult :=
  let rs := invoke_lambda_agent env "Interviewer" INTERVIEWER_FUNCTION
    [("type", .str "interview_prep"), ("job_id", .str ctx.job_id),
     ("job_profile", ctx.input_data.get "job_profile"),
     ("cv_profile", ctx.input_data.get "cv_profile"),
     ("gap_analysis", ctx.input_data.get "gap_analysis")]
    ctx.trace_context
  let result := rs.1
  let call : Invocation := { agent := "Interviewer", result := result, span := rs.2 }
  if (result.get "success").truthy then
    { ctx := ctx, job := { j with interviewer_payload := some result },
      message := "Interview prep complete", calls := [call] }
  else
    { ctx := ctx, job := j, message := "Interview prep failed", calls := [call] }

/-- Embedding of the tool `invoke_charter` (agent.py, lines 345-370): invokes
the charter Lambda and reports; it writes no payload slot. -/
def invoke_charter (env : Env) (ctx : OrchestratorContext) (j : Job) : ToolResult :=
  let rs := invoke_lambda_agent env "Charter" CHARTER_FUNCTION
    [("job_id", .str ctx.job_id),
     ("applications_data", ctx.input_data.get "applications_data"),
     ("user_id", ctx.input_data.get "user_id")]
    ctx.trace_context
  let result := rs.1
  let call : Invocation := { agent := "Charter", result := result, span := rs.2 }
  { ctx := ctx, job := j
    message := if (result.get "success").truthy then "Analytics generated" else "Analytics failed"
    calls := [call] }

/-- Embedding of `ensure_interviewer_called` (lambda_handler.py, lines
33-87): re-read `interviewer_payload` from the jobs table; when the stored
value is truthy, return; otherwise invoke the interviewer directly with the
in-memory context and, on a truthy `success`, persist the whole response into
`interviewer_payload`.  A failed call or a raised exception is only logged:
the function never propagates a failure. -/
def ensure_interviewer_called (env : Env) (job_id : String)
    (ctx : OrchestratorContext) (j : Job) (trace_context : Option TraceCtx) :
    Job × List Invocation :=
  if (j.interviewer_payload.getD .null).truthy then (j, [])
  else
    let rs := invoke_lambda_agent env "Interviewer" INTERVIEWER_FUNCTION
      [("type", .str "interview_prep"), ("job_id", .str job_id),
       ("job_profile", ctx.input_data.get "job_profile"),
       ("cv_profile", ctx.input_data.get "cv_profile"),
       ("gap_analysis", ctx.input_data.get "gap_analysis")]
      trace_context
    let result := rs.1
    let call : Invocation := { agent := "Interviewer", result := result, span := rs.2 }
    if (result.get "success").truthy then
      ({ j with interviewer_payload := some result }, [call])
    else (j, [call])

/-- The string content of a text field of the input envelope
(`input_data.get("cv_text", "")` and the like). -/
def Val.asString : Val → String
  | .str s => s
  | _ => ""

/-- The task text `create_agent` builds for a `full_analysis` job (agent.py,
lines 408-444): numbered extraction steps for whichever of the two profiles
is missing but has raw text, then the analyzer and interviewer steps, then
the raw texts themselves cut to 2000 characters. -/
def full_analysis_task (job_id : String) (cv_text job_text : String)
    (cv_profile job_profile : Val) : String :=
  let yn : Bool → String := fun b => if b then "Yes" else "No"
  let cvLine : Nat → String := fun n =>
    toString n ++ ". Call invoke_extractor(extraction_type=\"cv\", text=<the CV text>) to parse the CV. WAIT for result."
  let jobLine : Nat → String := fun n =>
    toString n ++ ". Call invoke_extractor(extraction_type=\"job\", text=<the job text>) to parse the job posting. WAIT for result."
  let needCv := !cv_text.isEmpty && !cv_profile.truthy
  let needJob := !job_text.isEmpty && !job_profile.truthy
  let stepsAndNum : List String × Nat :=
    let s1 : List String × Nat := if needCv then ([cvLine 1], 2) else ([], 1)
    if needJob then (s1.1 ++ [jobLine s1.2], s1.2 + 1) else s1
  let extraction_instructions := String.intercalate "\n" stepsAndNum.1
  let step_num := stepsAndNum.2
  "Complete full career analysis workflow for job " ++ job_id ++ ":\n\n"
    ++ "INPUT DATA:\n"
    ++ "- CV Text available: " ++ yn (!cv_text.isEmpty) ++ "\n"
    ++ "- CV Profile parsed: " ++ yn cv_profile.truthy ++ "\n"
    ++ "- Job Text available: " ++ yn (!job_text.isEmpty) ++ "  \n"
    ++ "- Job Profile parsed: " ++ yn job_profile.truthy ++ "\n\n"
    ++ (if !extraction_instructions.isEmpty then
          "EXTRACTION PHASE (required before analysis):\n" ++ extraction_instructions ++ "\n"
        else "")
    ++ "\nANALYSIS PHASE:\n"
    ++ toString step_num ++ ". Call invoke_analyzer(analysis_type=\"full_analysis\") and WAIT for the result.\n"
    ++ toString (step_num + 1) ++ ". Call invoke_interviewer() and WAIT for the result.\n"
    ++ toString (step_num + 2) ++ ". Only AFTER all tools have succeeded, respond with \x27Done\x27.\n\n"
    ++ (if needCv then
          "CV TEXT:\n" ++ cv_text.take 2000 ++ (if 2000 < cv_text.length then "..." else "")
        else "")
    ++ "\n\n"
    ++ (if needJob then
          "JOB TEXT:\n" ++ job_text.take 2000 ++ (if 2000 < job_text.length then "..." else "")
        else "")

/-- Embedding of `create_agent` (agent.py, lines 373-448): builds the
in-memory context and chooses the task text for the reasoning agent from the
job type.  An unknown job type yields the task
`Unknown job type: <kind>. Respond with error.` — no error is raised and no
status is written here. -/
def create_agent (job_id job_type : String) (input_data : Val)
    (trace_context : Option TraceCtx) : String × OrchestratorContext :=
  let context : OrchestratorContext :=
    { job_id := job_id, job_type := job_type, input_data := input_data,
      trace_context := trace_context }
  let task :=
    if job_type == "cv_parse" then
      "Parse the provided CV text using invoke_extractor with type=\x27cv\x27. Job ID: " ++ job_id
    else if job_type == "job_parse" then
      "Parse the provided job posting using invoke_extractor with type=\x27job\x27. Job ID: " ++ job_id
    else if job_type == "gap_analysis" then
      "Run gap analysis comparing CV to job using invoke_analyzer. Job ID: " ++ job_id
    else if job_type == "cv_rewrite" then
      "Generate CV rewrite using invoke_analyzer with type=\x27cv_rewrite\x27. Job ID: " ++ job_id
    else if job_type == "interview_prep" then
      "Generate interview preparation using invoke_interviewer. Job ID: " ++ job_id
    else if job_type == "get_analytics" then
      "Generate application analytics using invoke_charter. Job ID: " ++ job_id
    else if job_type == "full_analysis" then
      full_analysis_task job_id (input_data.getD "cv_text" (.str "")).asString
        (input_data.getD "job_text" (.str "")).asString
        (input_data.get "cv_profile") (input_data.get "job_profile")
    else
      "Unknown job type: " ++ job_type ++ ". Respond with error."
  (task, context)

/-- What `Runner.run` — the LLM reasoning agent together with the tool calls
it chooses to make — did with the context and the jobs table: either it
returned, or it raised an exception.  The agent is a parameter of the
embedding because its step choices are made by an LLM; its only effect
channels are the in-memory context, the jobs table (through the four tools)
and the Lambda invocations it performs. -/
inductive AgentOutcome where
  | ok (ctx : OrchestratorContext) (j : Job) (calls : List Invocation)
  | exc (e : PyExc) (ctx : OrchestratorContext) (j : Job) (calls : List Invocation)

/-- A reasoning-agent behavior: from the task text, the initial context and
the current jobs row to an outcome. -/
def AgentRun : Type :=
  String → OrchestratorContext → Job → AgentOutcome

/-- A plan the reasoning agent may execute: one constructor per tool of
agent.py. -/
inductive ToolCall where
  | extractor (extraction_type text : String)
  | analyzer (analysis_type : String)
  | interviewer
  | charter
deriving Repr, DecidableEq

/-- Execute a list of tool calls in order, threading context and job row, as
the agents framework does for the tool choices of the LLM. -/
def runTools (env : Env) : List ToolCall → OrchestratorContext → Job →
    OrchestratorContext × Job × List Invocation
  | [], ctx, j => (ctx, j, [])
  | c :: cs, ctx, j =>
    let tr :=
      match c with
      | .extractor et text => invoke_extractor env ctx j et text
      | .analyzer at0 => invoke_analyzer env ctx j at0
      | .interviewer => invoke_interviewer env ctx j
      | .charter => invoke_charter env ctx j
    let rest := runTools env cs tr.ctx tr.job
    (rest.1, rest.2.1, tr.calls ++ rest.2.2)

/-- The reasoning agent that executes a fixed list of tool calls and
returns: the well-behaved instances of `AgentRun`. -/
def toolAgent (env : Env) (cs : List ToolCall) : AgentRun :=
  fun _task ctx j =>
    let r := runTools env cs ctx j
    .ok r.1 r.2.1 r.2.2

/-- Outcome of `run_orchestrator` on one job: the final jobs row, the Lambda
invocations performed, and the exception the coroutine re-raised, if any. -/
structure RunResult where
  job : Job
  calls : List Invocation
  raised : Option PyExc
deriving Repr

/-- Embedding of the body of `run_orchestrator` (lambda_handler.py, lines
95-144), without the tenacity decorator: set the status to `processing` (raw
update, no timestamp), build the agent, run it; for `full_analysis` run the
interviewer enforcement; set the status to `completed` (raw update, no
timestamp).  An exception from the agent run is caught, the job is marked
`failed` with the exception text, and the exception is re-raised. -/
def run_orchestrator (env : Env) (agentRun : AgentRun) (job_id job_type : String)
    (input_data : Val) (trace_context : Option TraceCtx) (j : Job) : RunResult :=
  let j1 := orch_set_processing j
  let tc := create_agent job_id job_type input_data trace_context
  match agentRun tc.1 tc.2 j1 with
  | .exc e _ctx2 j2 calls =>
    { job := orch_set_failed e.msg j2, calls := calls, raised := some e }
  | .ok ctx2 j2 calls =>
    if job_type == "full_analysis" then
      let enforced := ensure_interviewer_called env job_id ctx2 j2 trace_context
      { job := orch_set_completed enforced.1, calls := calls ++ enforced.2, raised := none }
    else
      { job := orch_set_completed j2, calls := calls, raised := none }

/-- The wait, in seconds, computed by tenacity's
`wait_exponential(multiplier=1, min=4, max=60)` after `n` attempts, as
configured on `run_orchestrator` (lambda_handler.py, lines 90-94):
`multiplier * 2^n` clamped into `[4, 60]`. -/
def retry_wait_seconds (n : Nat) : Nat :=
  min (max (1 * 2 ^ n) 4) 60

/-- The retry loop of the tenacity decorator on `run_orchestrator`
(lambda_handler.py, lines 90-94): re-run the body — against the jobs row the
previous attempt left behind — while it raises a rate-limit exception, up to
`stop_after_attempt(5)`; any other exception, or none, ends the loop.
`attempt` is the current attempt number and `rem` the attempts remaining
after it; the result carries the attempt count that actually ran. -/
def retry_go (body : Nat → Job → RunResult) (attempt : Nat) (j : Job) :
    Nat → RunResult × Nat
  | 0 => (body attempt j, attempt)
  | rem + 1 =>
    let r := body attempt j
    match r.raised with
    | some e => if e.isRateLimit then retry_go body (attempt + 1) r.job rem else (r, attempt)
    | none => (r, attempt)

/-- `run_orchestrator` as decorated: `stop_after_attempt(5)` with
`retry_if_exception_type(RateLimitError)`. -/
def run_orchestrator_with_retry (body : Nat → Job → RunResult) (j : Job) :
    RunResult × Nat :=
  retry_go body 1 j 4

/-- Embedding of the jobs-record branch of `lambda_handler`
(lambda_handler.py, lines 163-229) after the job id is extracted from the
queue message: a missing record answers 404 (poison message, acknowledged); a
found record is processed by the retry-decorated `run_orchestrator` — with no
terminal-status check — and the handler answers 200, or 500 when the
orchestration re-raised.  The handler itself never raises, so the SQS message
is acknowledged in every branch. -/
def lambda_handler (env : Env) (agentRun : AgentRun) (job_id : String)
    (trace_context : Option TraceCtx) (record : Option Job) :
    Option Job × List Invocation × Nat :=
  match record with
  | none => (none, [], 404)
  | some j =>
    let r := run_orchestrator_with_retry
      (fun _attempt j0 => run_orchestrator env agentRun job_id j.job_type j.input_data
        trace_context j0) j
    match r.1.raised with
    | some _ => (some r.1.job, r.1.calls, 500)
    | none => (some r.1.job, r.1.calls, 200)

/-- A fresh `full_analysis` job row as the API creates it: `pending`, no
payloads, no timestamps. -/
def job0 : Job :=
  { job_type := "full_analysis", status := .pending, input_data := .dict [],
    extractor_payload := none, analyzer_payload := none, interviewer_payload := none,
    charter_payload := none, summary_payload := none, error_message := none,
    progress_percentage := 0, started_at := none, completed_at := none }

/-- The in-memory context for `job0`. -/
def ctx0 : OrchestratorContext :=
  { job_id := "job-1", job_type := "full_analysis", input_data := .dict [],
    trace_context := none }

/-- A successful interviewer response. -/
def interviewerOkResp : Val :=
  .dict [("success", .bool true),
         ("interview_pack", .dict [("questions", .list []), ("focus_areas", .list [])])]

/-- A successful extractor response. -/
def extractorOkResp : Val :=
  .dict [("success", .bool true), ("profile", .dict [("name", .str "Jane Doe")])]

/-- A rate-limit failure response, the transient class of §6.6. -/
def rateLimitResp : Val :=
  .dict [("success", .bool false), ("error", .str "Rate limit exceeded")]

/-- A world in which every Lambda responds with `interviewerOkResp`. -/
def env_interviewer_ok : Env :=
  { invoke := fun _ _ => .ok interviewerOkResp,
    jsonParse := fun _ => .error { msg := "json", isRateLimit := false },
    mock := false }

/-- A world in which every Lambda responds with `extractorOkResp`. -/
def env_extractor_ok : Env :=
  { invoke := fun _ _ => .ok extractorOkResp,
    jsonParse := fun _ => .error { msg := "json", isRateLimit := false },
    mock := false }

/-- A world in which every Lambda responds with `rateLimitResp`. -/
def env_rate_limited : Env :=
  { invoke := fun _ _ => .ok rateLimitResp,
    jsonParse := fun _ => .error { msg := "json", isRateLimit := false },
    mock := false }

/-- A world in which every Lambda invocation raises a failure whose `success`
path is never reached. -/
def env_raises : Env :=
  { invoke := fun _ _ => .error { msg := "boom", isRateLimit := false },
    jsonParse := fun _ => .error { msg := "json", isRateLimit := false },
    mock := false }

/-- A reasoning agent that calls no tool and returns. -/
def trivialAgent : AgentRun := fun _ ctx j => .ok ctx j []

/-- The columns of a job row that no specialist tool may touch: its type, its
status, its error message and both timestamps. -/
def preservesMeta (j j' : Job) : Prop :=
  j'.job_type = j.job_type ∧ j'.status = j.status ∧
  j'.error_message = j.error_message ∧
  j'.started_at = j.started_at ∧ j'.completed_at = j.completed_at

/-- The seven job kinds `create_agent` recognizes. -/
def knownKinds : List String :=
  ["cv_parse", "job_parse", "gap_analysis", "cv_rewrite", "interview_prep",
   "get_analytics", "full_analysis"]

/-- The agent name each tool passes to `invoke_lambda_agent`. -/
def ToolCall.agentName : ToolCall → String
  | .extractor _ _ => "Extractor"
  | .analyzer _ => "Analyzer"
  | .interviewer => "Interviewer"
  | .charter => "Charter"

/-- An analyzer `full_analysis` response that is a partial success: gap
analysis present, `cv_rewrite` missing, `cv_rewrite_error` supplied
(§4.4.5 of the spec, scenario S4). -/
def analyzerPartialResp : Val :=
  .dict [("success", .bool true),
         ("gap_analysis", .dict [("fit_score", .int 72)]),
         ("cv_rewrite_error", .str "timeout")]

/-- A world in which every Lambda responds with `analyzerPartialResp`. -/
def env_analyzer_partial : Env :=
  { invoke := fun _ _ => .ok analyzerPartialResp,
    jsonParse := fun _ => .error { msg := "json", isRateLimit := false },
    mock := false }

/-- A 2001-character string, one character over the truncation budget. -/
def s2001 : String := String.mk (List.replicate 2001 'a')

/-! ### Helper lemmas -/

theorem lookupKey_setPairs_ne (k k' : String) (x : Val) (l : List (String × Val))
    (h : (k == k') = false) : lookupKey k' (setPairs k x l) = lookupKey k' l := by
  induction l with
  | nil => simp [setPairs, lookupKey, h]
  | cons kv rest ih =>
    obtain ⟨k1, v1⟩ := kv
    by_cases h1 : (k1 == k) = true
    · have hk : k1 = k := by simpa [beq_iff_eq] using h1
      subst hk
      simp [setPairs, lookupKey, h, h1]
    · simp only [setPairs, lookupKey, h1, Bool.false_eq_true, if_false, if_neg]
      split <;> simp [ih]

theorem log_agent_invocation_isSome (tcx : Option TraceCtx) (a : String)
    (inp : Val) (out : Option Val) (err : Option Val) (d : Bool) :
    (log_agent_invocation tcx a inp out err d).isSome = tcx.isSome := by
  cases tcx <;> rfl

theorem preservesMeta_refl (j : Job) : preservesMeta j j :=
  ⟨rfl, rfl, rfl, rfl, rfl⟩

theorem preservesMeta_trans {j1 j2 j3 : Job} (h1 : preservesMeta j1 j2)
    (h2 : preservesMeta j2 j3) : preservesMeta j1 j3 := by
  obtain ⟨a1, b1, c1, d1, e1⟩ := h1
  obtain ⟨a2, b2, c2, d2, e2⟩ := h2
  exact ⟨a2.trans a1, b2.trans b1, c2.trans c1, d2.trans d1, e2.trans e1⟩

theorem invoke_extractor_meta (env : Env) (ctx : OrchestratorContext) (j : Job)
    (et text : String) : preservesMeta j (invoke_extractor env ctx j et text).job := by
  unfold invoke_extractor
  dsimp only
  split
  · split
    · exact ⟨rfl, rfl, rfl, rfl, rfl⟩
    · dsimp only
      split <;> exact ⟨rfl, rfl, rfl, rfl, rfl⟩
  · exact preservesMeta_refl j

theorem invoke_analyzer_meta (env : Env) (ctx : OrchestratorContext) (j : Job)
    (at0 : String) : preservesMeta j (invoke_analyzer env ctx j at0).job := by
  unfold invoke_analyzer
  dsimp only
  split
  · exact ⟨rfl, rfl, rfl, rfl, rfl⟩
  · exact preservesMeta_refl j

theorem invoke_interviewer_meta (env : Env) (ctx : OrchestratorContext) (j : Job) :
    preservesMeta j (invoke_interviewer env ctx j).job := by
  unfold invoke_interviewer
  dsimp only
  split
  · exact ⟨rfl, rfl, rfl, rfl, rfl⟩
  · exact preservesMeta_refl j

theorem invoke_charter_meta (env : Env) (ctx : OrchestratorContext) (j : Job) :
    preservesMeta j (invoke_charter env ctx j).job :=
  preservesMeta_refl j

theorem runTools_meta (env : Env) (cs : List ToolCall) :
    ∀ (ctx : OrchestratorContext) (j : Job), preservesMeta j (runTools env cs ctx j).2.1 := by
  induction cs with
  | nil => intro ctx j; exact preservesMeta_refl j
  | cons c cs ih =>
    intro ctx j
    cases c with
    | extractor et text =>
      exact preservesMeta_trans (invoke_extractor_meta env ctx j et text) (ih _ _)
    | analyzer at0 =>
      exact preservesMeta_trans (invoke_analyzer_meta env ctx j at0) (ih _ _)
    | interviewer =>
      exact preservesMeta_trans (invoke_interviewer_meta env ctx j) (ih _ _)
    | charter =>
      exact preservesMeta_trans (invoke_charter_meta env ctx j) (ih _ _)

theorem ensure_interviewer_called_meta (env : Env) (jid : String)
    (ctx : OrchestratorContext) (j : Job) (tcx : Option TraceCtx) :
    preservesMeta j (ensure_interviewer_called env jid ctx j tcx).1 := by
  unfold ensure_interviewer_called
  dsimp only
  split
  · exact preservesMeta_refl j
  · split
    · exact ⟨rfl, rfl, rfl, rfl, rfl⟩
    · exact preservesMeta_refl j

theorem ensure_interviewer_called_isSome (env : Env) (jid : String)
    (ctx : OrchestratorContext) (j : Job) (tcx : Option TraceCtx)
    (hsucc : ∀ (p : List (String × Val)) (tc0 : Option TraceCtx),
      ((invoke_lambda_agent env "Interviewer" INTERVIEWER_FUNCTION p tc0).1.get "success").truthy = true) :
    (ensure_interviewer_called env jid ctx j tcx).1.interviewer_payload.isSome = true := by
  unfold ensure_interviewer_called
  dsimp only
  split
  · next htruthy =>
    cases hj : j.interviewer_payload with
    | none => rw [hj] at htruthy; simp [Val.truthy] at htruthy
    | some v => simp [hj]
  · simp [hsucc]

theorem run_orchestrator_ok_completed (env : Env) (agentRun : AgentRun)
    (jid jt : String) (inp : Val) (tcx : Option TraceCtx) (j : Job)
    (hok : (run_orchestrator env agentRun jid jt inp tcx j).raised = none) :
    (run_orchestrator env agentRun jid jt inp tcx j).job.status = .completed := by
  unfold run_orchestrator at hok ⊢
  dsimp only at hok ⊢
  cases h : agentRun (create_agent jid jt inp tcx).1 (create_agent jid jt inp tcx).2
      (orch_set_processing j) with
  | exc e c2 j2 calls => rw [h] at hok; simp at hok
  | ok c2 j2 calls =>
    dsimp only
    split <;> rfl

theorem truncList_eq_map_take (m : Nat) (n : Nat) (xs : List Val) :
    truncate_for_trace.truncList m n xs = (xs.take n).map (truncate_for_trace m) := by
  induction xs generalizing n with
  | nil => cases n <;> rfl
  | cons v vs ih =>
    cases n with
    | zero => rfl
    | succ k => simp [truncate_for_trace.truncList, ih]

theorem truncDict_eq_map (m : Nat) (kvs : List (String × Val)) :
    truncate_for_trace.truncDict m kvs
      = kvs.map (fun kv => (kv.1, truncate_for_trace m kv.2)) := by
  induction kvs with
  | nil => rfl
  | cons kv rest ih =>
    obtain ⟨k, v⟩ := kv
    simp [truncate_for_trace.truncDict, ih]

theorem string_append_right_ne (s : String) (a b : String) (h : a.data ≠ b.data) :
    s ++ a ≠ s ++ b := by
  intro he
  apply h
  have hd : (s ++ a).data = (s ++ b).data := by rw [he]
  rw [String.data_append, String.data_append] at hd
  exact List.append_cancel_left hd

theorem s2001_length : s2001.length = 2001 := by
  rw [s2001, String.length_mk, List.length_replicate]

theorem invoke_extractor_agents (env : Env) (ctx : OrchestratorContext) (j : Job)
    (et text : String) :
    (invoke_extractor env ctx j et text).calls.map Invocation.agent = ["Extractor"] := by
  unfold invoke_extractor
  dsimp only
  split
  · split
    · rfl
    · rfl
  · rfl

theorem invoke_analyzer_agents (env : Env) (ctx : OrchestratorContext) (j : Job)
    (at0 : String) :
    (invoke_analyzer env ctx j at0).calls.map Invocation.agent = ["Analyzer"] := by
  unfold invoke_analyzer
  dsimp only
  split <;> rfl

theorem invoke_interviewer_agents (env : Env) (ctx : OrchestratorContext) (j : Job) :
    (invoke_interviewer env ctx j).calls.map Invocation.agent = ["Interviewer"] := by
  unfold invoke_interviewer
  dsimp only
  split <;> rfl

theorem invoke_charter_agents (env : Env) (ctx : OrchestratorContext) (j : Job) :
    (invoke_charter env ctx j).calls.map Invocation.agent = ["Charter"] := by
  rfl

theorem runTools_agents (env : Env) (cs : List ToolCall) :
    ∀ (ctx : OrchestratorContext) (j : Job),
      (runTools env cs ctx j).2.2.map Invocation.agent = cs.map ToolCall.agentName := by
  induction cs with
  | nil => intro ctx j; rfl
  | cons c cs ih =>
    intro ctx j
    cases c with
    | extractor et text =>
      simp [runTools, List.map_append, ih, invoke_extractor_agents, ToolCall.agentName]
    | analyzer at0 =>
      simp [runTools, List.map_append, ih, invoke_analyzer_agents, ToolCall.agentName]
    | interviewer =>
      simp [runTools, List.map_append, ih, invoke_interviewer_agents, ToolCall.agentName]
    | charter =>
      simp [runTools, List.map_append, ih, invoke_charter_agents, ToolCall.agentName]

theorem classify_result_isDict (d : Except PyExc Val) :
    (classify_result d).1.isDict = true := by
  cases d with
  | error e => rfl
  | ok r =>
    rcases r with _ | b | n | s | xs | kvs <;> try rfl
    unfold classify_result
    dsimp only
    split <;> rfl

/-! ### Claim C9 — trace truncation -/

/-- C9, counterexample.  The truncation suffix the claim states — an ellipsis
character, `"… [truncated, total N chars]"` — is not what the code produces:
`truncate_for_trace` appends three ASCII periods, `"... [truncated, total N
chars]"`.  On a 2001-character string the two results differ. -/
theorem truncate_suffix_is_ascii_dots :
    truncate_for_trace 2000 (.str s2001)
      ≠ .str (s2001.take 2000 ++ "… [truncated, total 2001 chars]") := by
  have hgt : 2000 < s2001.length := by rw [s2001_length]; norm_num
  have h1 : truncate_for_trace 2000 (.str s2001)
      = .str (s2001.take 2000 ++ "... [truncated, total " ++ toString s2001.length ++ " chars]") := by
    unfold truncate_for_trace
    rw [if_pos hgt]
  rw [h1, s2001_length]
  have e1 : ("... [truncated, total ").length = 22 := rfl
  have e2 : (toString (2001 : Nat)).length = 4 := rfl
  have e3 : (" chars]").length = 7 := rfl
  have e4 : ("… [truncated, total 2001 chars]").length = 31 := rfl
  intro he
  injection he with hs
  have hl := congrArg String.length hs
  rw [String.length_append, String.length_append, String.length_append,
    String.length_append, e1, e2, e3, e4] at hl
  omega

/-- C9, amended.  `truncate_for_trace` at the default budget of 2000: a string
of at most 2000 characters is unchanged; a longer string becomes its first
2000 characters followed by `"... [truncated, total N chars]"` (three ASCII
periods, not the ellipsis character the claim quotes) with `N` the original
length; a list keeps at most its first 10 elements, each recursively
truncated; a dictionary is truncated valuewise with its keys preserved; and
non-string scalars are unchanged. -/
theorem truncate_for_trace_spec :
    (∀ s : String, s.length ≤ 2000 → truncate_for_trace 2000 (.str s) = .str s)
  ∧ (∀ s : String, 2000 < s.length →
      truncate_for_trace 2000 (.str s)
        = .str (s.take 2000 ++ "... [truncated, total " ++ toString s.length ++ " chars]"))
  ∧ (∀ xs : List Val, truncate_for_trace 2000 (.list xs)
        = .list ((xs.take 10).map (truncate_for_trace 2000)))
  ∧ (∀ kvs : List (String × Val), truncate_for_trace 2000 (.dict kvs)
        = .dict (kvs.map fun kv => (kv.1, truncate_for_trace 2000 kv.2)))
  ∧ (∀ b : Bool, truncate_for_trace 2000 (.bool b) = .bool b)
  ∧ (∀ n : Int, truncate_for_trace 2000 (.int n) = .int n)
  ∧ truncate_for_trace 2000 .null = .null := by
  refine ⟨?_, ?_, ?_, ?_, fun b => rfl, fun n => rfl, rfl⟩
  · intro s h
    unfold truncate_for_trace
    rw [if_neg (Nat.not_lt.mpr h)]
  · intro s h
    unfold truncate_for_trace
    rw [if_pos h]
  · intro xs
    unfold truncate_for_trace
    rw [truncList_eq_map_take]
  · intro kvs
    have h0 : truncate_for_trace 2000 (.dict kvs)
        = .dict (truncate_for_trace.truncDict 2000 kvs) := rfl
    rw [h0, truncDict_eq_map]

/-- C9, witness: the amended characterization applied at concrete inputs — a
short string, the 2001-character string, a 12-element list and a
one-key dictionary. -/
theorem truncate_for_trace_spec_witness :
    truncate_for_trace 2000 (.str "short") = .str "short"
  ∧ truncate_for_trace 2000 (.str s2001)
      = .str (s2001.take 2000 ++ "... [truncated, total " ++ toString s2001.length ++ " chars]")
  ∧ truncate_for_trace 2000 (.list (List.replicate 12 Val.null))
      = .list (((List.replicate 12 Val.null).take 10).map (truncate_for_trace 2000))
  ∧ truncate_for_trace 2000 (.dict [("k", .bool true)])
      = .dict ([("k", Val.bool true)].map fun kv => (kv.1, truncate_for_trace 2000 kv.2)) :=
  ⟨truncate_for_trace_spec.1 "short" (by decide),
   truncate_for_trace_spec.2.1 s2001 (by rw [s2001_length]; norm_num),
   truncate_for_trace_spec.2.2.1 (List.replicate 12 Val.null),
   truncate_for_trace_spec.2.2.2.1 [("k", .bool true)]⟩

/-! ### Claim C10 — invoke_lambda_agent never raises -/

/-- C10.  For every environment, agent name, function name, payload and
trace context, `invoke_lambda_agent` returns a dictionary; an invocation that
raises is caught and returned as `{success: false, error: <message>}`; and
the invocation is logged (the `finally` block) on the success and the failure
path alike — a span is emitted exactly when the trace sink is configured. -/
theorem invoke_lambda_agent_total (env : Env) (agent_name function_name : String)
    (payload0 : List (String × Val)) (tcx : Option TraceCtx) :
    ((invoke_lambda_agent env agent_name function_name payload0 tcx).1.isDict = true)
  ∧ ((invoke_lambda_agent env agent_name function_name payload0 tcx).2.isSome = tcx.isSome)
  ∧ (∀ e : PyExc, env.mock = false →
      (∀ q : Val, env.invoke function_name q = .error e) →
      (invoke_lambda_agent env agent_name function_name payload0 tcx).1
        = .dict [("success", .bool false), ("error", .str e.msg)]) := by
  refine ⟨?_, ?_, ?_⟩
  · unfold invoke_lambda_agent
    dsimp only
    split
    · rfl
    · exact classify_result_isDict _
  · unfold invoke_lambda_agent
    dsimp only
    split
    · dsimp only
      exact log_agent_invocation_isSome _ _ _ _ _ _
    · dsimp only
      exact log_agent_invocation_isSome _ _ _ _ _ _
  · intro e hm henv
    simp [invoke_lambda_agent, hm, henv, classify_result]

/-- C10, witness: in a world where every invocation raises `boom`, the
returned value is the error dictionary and the invocation is still logged. -/
theorem invoke_lambda_agent_total_witness :
    (invoke_lambda_agent env_raises "Analyzer" ANALYZER_FUNCTION []
        (some { trace_id := "t", span_id := none })).1
      = .dict [("success", .bool false), ("error", .str "boom")]
  ∧ (invoke_lambda_agent env_raises "Analyzer" ANALYZER_FUNCTION []
        (some { trace_id := "t", span_id := none })).2.isSome = true :=
  ⟨(invoke_lambda_agent_total env_raises "Analyzer" ANALYZER_FUNCTION []
      (some { trace_id := "t", span_id := none })).2.2
      { msg := "boom", isRateLimit := false } rfl (fun _ => rfl),
   (invoke_lambda_agent_total env_raises "Analyzer" ANALYZER_FUNCTION []
      (some { trace_id := "t", span_id := none })).2.1⟩

/-! ### Claim C1 — mandatory interviewer step -/

/-- C1, counterexample.  A `full_analysis` job whose reasoning agent returns
without calling any tool, in a world where the interviewer responds with a
rate-limit failure: the enforcement call is made (one invocation) and fails,
yet the job reaches `completed` with `interviewer_payload` absent and no
error — the failed mandatory step does not fail the job. -/
theorem full_analysis_completes_without_interviewer :
    (run_orchestrator env_rate_limited trivialAgent "job-1" "full_analysis"
        (.dict []) none job0).job.status = .completed
  ∧ (run_orchestrator env_rate_limited trivialAgent "job-1" "full_analysis"
        (.dict []) none job0).job.interviewer_payload = none
  ∧ (run_orchestrator env_rate_limited trivialAgent "job-1" "full_analysis"
        (.dict []) none job0).job.error_message = none
  ∧ (run_orchestrator env_rate_limited trivialAgent "job-1" "full_analysis"
        (.dict []) none job0).calls.map Invocation.agent = ["Interviewer"] :=
  ⟨rfl, rfl, rfl, rfl⟩

/-- C1, amended.  For a `full_analysis` job the enforcement step guarantees
the invariant only when the interviewer invocation it may issue reports
success: under that assumption, every run of the orchestrator that does not
re-raise leaves the job `completed` with `interviewer_payload` non-absent.
When the enforcement call fails (a `success=false` response or a raised
exception), the failure is logged and swallowed and the job still completes,
possibly with the slot absent. -/
theorem full_analysis_completed_has_interviewer_payload (env : Env)
    (agentRun : AgentRun) (jid : String) (inp : Val) (tcx : Option TraceCtx) (j : Job)
    (hsucc : ∀ (p : List (String × Val)) (tc0 : Option TraceCtx),
      ((invoke_lambda_agent env "Interviewer" INTERVIEWER_FUNCTION p tc0).1.get "success").truthy = true)
    (hok : (run_orchestrator env agentRun jid "full_analysis" inp tcx j).raised = none) :
    (run_orchestrator env agentRun jid "full_analysis" inp tcx j).job.status = .completed
  ∧ (run_orchestrator env agentRun jid "full_analysis" inp tcx j).job.interviewer_payload.isSome = true := by
  refine ⟨run_orchestrator_ok_completed env agentRun jid "full_analysis" inp tcx j hok, ?_⟩
  unfold run_orchestrator at hok ⊢
  dsimp only at hok ⊢
  cases h : agentRun (create_agent jid "full_analysis" inp tcx).1
      (create_agent jid "full_analysis" inp tcx).2 (orch_set_processing j) with
  | exc e c2 j2 calls => rw [h] at hok; simp at hok
  | ok c2 j2 calls =>
    dsimp only
    exact ensure_interviewer_called_isSome env jid c2 j2 tcx hsucc

/-- C1, witness: with an interviewer that succeeds, a concrete
`full_analysis` run completes with the payload slot filled. -/
theorem full_analysis_completed_has_interviewer_payload_witness :
    (run_orchestrator env_interviewer_ok trivialAgent "job-1" "full_analysis"
        (.dict []) none job0).job.status = .completed
  ∧ (run_orchestrator env_interviewer_ok trivialAgent "job-1" "full_analysis"
        (.dict []) none job0).job.interviewer_payload.isSome = true :=
  full_analysis_completed_has_interviewer_payload env_interviewer_ok trivialAgent
    "job-1" (.dict []) none job0 (fun p tc0 => by cases tc0 <;> rfl) rfl

/-! ### Claim C2 — enforcement re-read and conditional invocation -/

/-- C2, counterexample.  The enforcement check is Python truthiness, not
absence: a job whose `interviewer_payload` is present but empty (`{}`) is
non-absent, yet the interviewer is invoked again and the slot overwritten —
refuting the claim's `if and only if it is absent`. -/
theorem ensure_invokes_on_nonabsent_falsy_slot :
    ({ job0 with interviewer_payload := some (.dict []) } : Job).interviewer_payload.isSome = true
  ∧ (ensure_interviewer_called env_interviewer_ok "job-1" ctx0
      { job0 with interviewer_payload := some (.dict []) } none).2.map Invocation.agent
      = ["Interviewer"]
  ∧ (ensure_interviewer_called env_interviewer_ok "job-1" ctx0
      { job0 with interviewer_payload := some (.dict []) } none).1.interviewer_payload
      = some interviewerOkResp :=
  ⟨rfl, rfl, rfl⟩

/-- C2, amended.  After the plan finishes, the orchestrator re-reads
`interviewer_payload` from the jobs table; it invokes the interviewer
directly, with the in-memory `job_profile`, `cv_profile` and `gap_analysis`,
if and only if the stored value is absent or falsy (e.g. an empty object);
on a success response the whole result is persisted into
`interviewer_payload`, otherwise the job row is left unchanged. -/
theorem ensure_interviewer_called_spec (env : Env) (jid : String)
    (ctx : OrchestratorContext) (j : Job) (tcx : Option TraceCtx) :
    ((j.interviewer_payload.getD .null).truthy = true →
      ensure_interviewer_called env jid ctx j tcx = (j, []))
  ∧ ((j.interviewer_payload.getD .null).truthy = false →
      ((ensure_interviewer_called env jid ctx j tcx).2.map Invocation.agent = ["Interviewer"]
      ∧ (∀ result : Val,
          result = (invoke_lambda_agent env "Interviewer" INTERVIEWER_FUNCTION
            [("type", .str "interview_prep"), ("job_id", .str jid),
             ("job_profile", ctx.input_data.get "job_profile"),
             ("cv_profile", ctx.input_data.get "cv_profile"),
             ("gap_analysis", ctx.input_data.get "gap_analysis")] tcx).1 →
          (ensure_interviewer_called env jid ctx j tcx).1
            = (if (result.get "success").truthy then
                { j with interviewer_payload := some result }
              else j)))) := by
  constructor
  · intro h
    unfold ensure_interviewer_called
    rw [if_pos h]
  · intro h
    unfold ensure_interviewer_called
    rw [if_neg (by simp [h])]
    dsimp only
    constructor
    · split <;> rfl
    · intro result hres
      subst hres
      split <;> simp_all

/-- C2, witness: on a job with the slot absent, the enforcement invokes the
interviewer once and persists the successful response. -/
theorem ensure_interviewer_called_spec_witness :
    (ensure_interviewer_called env_interviewer_ok "job-1" ctx0 job0 none).2.map
        Invocation.agent = ["Interviewer"]
  ∧ (ensure_interviewer_called env_interviewer_ok "job-1" ctx0 job0 none).1
      = (if ((invoke_lambda_agent env_interviewer_ok "Interviewer" INTERVIEWER_FUNCTION
            [("type", .str "interview_prep"), ("job_id", .str "job-1"),
             ("job_profile", ctx0.input_data.get "job_profile"),
             ("cv_profile", ctx0.input_data.get "cv_profile"),
             ("gap_analysis", ctx0.input_data.get "gap_analysis")] none).1.get "success").truthy
          then { job0 with interviewer_payload := some (invoke_lambda_agent env_interviewer_ok
            "Interviewer" INTERVIEWER_FUNCTION
            [("type", .str "interview_prep"), ("job_id", .str "job-1"),
             ("job_profile", ctx0.input_data.get "job_profile"),
             ("cv_profile", ctx0.input_data.get "cv_profile"),
             ("gap_analysis", ctx0.input_data.get "gap_analysis")] none).1 }
          else job0) :=
  ⟨((ensure_interviewer_called_spec env_interviewer_ok "job-1" ctx0 job0 none).2 rfl).1,
   ((ensure_interviewer_called_spec env_interviewer_ok "job-1" ctx0 job0 none).2 rfl).2
     _ rfl⟩

/-! ### Claim C3 — retries and rate limits -/

/-- C3, counterexample.  A specialist that returns a rate-limit error
response is not retried at all: the interviewer step performs exactly one
Lambda invocation, returns the error response unchanged and fails the step
immediately — not after a fifth attempt. -/
theorem specialist_rate_limit_not_retried :
    (invoke_interviewer env_rate_limited ctx0 job0).calls.map Invocation.agent = ["Interviewer"]
  ∧ (invoke_interviewer env_rate_limited ctx0 job0).calls.length = 1
  ∧ (invoke_interviewer env_rate_limited ctx0 job0).message = "Interview prep failed"
  ∧ (invoke_interviewer env_rate_limited ctx0 job0).job.interviewer_payload = none :=
  ⟨rfl, rfl, rfl, rfl⟩

/-- C3, amended.  The retry policy — `retry_if_exception_type(RateLimitError)`,
`stop_after_attempt(5)`, `wait_exponential(multiplier=1, min=4, max=60)` — is
attached to the whole `run_orchestrator` coroutine, not to individual
specialist calls: every specialist call performs exactly one Lambda
invocation whatever the response, and since `invoke_lambda_agent` converts
exceptions into error dictionaries, a specialist failure never reaches the
decorator.  The decorator itself re-runs the whole orchestration on a
`RateLimitError` escaping the agent run, up to five attempts, and re-raises
any other exception after the first attempt. -/
theorem retry_policy_wraps_run_orchestrator :
    (∀ (env : Env) (ctx : OrchestratorContext) (j : Job),
      (invoke_interviewer env ctx j).calls.length = 1)
  ∧ (∀ (env : Env) (ctx : OrchestratorContext) (j : Job) (et text : String),
      (invoke_extractor env ctx j et text).calls.length = 1)
  ∧ (∀ (env : Env) (ctx : OrchestratorContext) (j : Job) (at0 : String),
      (invoke_analyzer env ctx j at0).calls.length = 1)
  ∧ (∀ (env : Env) (ctx : OrchestratorContext) (j : Job),
      (invoke_charter env ctx j).calls.length = 1)
  ∧ (∀ (body : Nat → Job → RunResult) (j : Job) (e : PyExc),
      e.isRateLimit = true → (∀ k j0, (body k j0).raised = some e) →
      (run_orchestrator_with_retry body j).2 = 5
      ∧ (run_orchestrator_with_retry body j).1.raised = some e)
  ∧ (∀ (body : Nat → Job → RunResult) (j : Job) (e : PyExc),
      e.isRateLimit = false → (∀ k j0, (body k j0).raised = some e) →
      (run_orchestrator_with_retry body j).2 = 1) := by
  refine ⟨?_, ?_, ?_, ?_, ?_, ?_⟩
  · intro env ctx j
    unfold invoke_interviewer
    dsimp only
    split <;> rfl
  · intro env ctx j et text
    unfold invoke_extractor
    dsimp only
    split
    · split <;> rfl
    · rfl
  · intro env ctx j at0
    unfold invoke_analyzer
    dsimp only
    split <;> rfl
  · intro env ctx j
    rfl
  · intro body j e hrl hbody
    unfold run_orchestrator_with_retry
    simp [retry_go, hbody, hrl]
  · intro body j e hrl hbody
    unfold run_orchestrator_with_retry
    simp [retry_go, hbody, hrl]

/-- C3, witness: a body that always raises a rate-limit error runs five
attempts; one that raises a permanent error runs once; a concrete specialist
call makes exactly one invocation. -/
theorem retry_policy_wraps_run_orchestrator_witness :
    (run_orchestrator_with_retry
        (fun _ _ => { job := job0, calls := [], raised := some { msg := "429", isRateLimit := true } })
        job0).2 = 5
  ∧ (run_orchestrator_with_retry
        (fun _ _ => { job := job0, calls := [], raised := some { msg := "bad", isRateLimit := false } })
        job0).2 = 1
  ∧ (invoke_interviewer env_rate_limited ctx0 job0).calls.length = 1 :=
  ⟨(retry_policy_wraps_run_orchestrator.2.2.2.2.1
      (fun _ _ => { job := job0, calls := [], raised := some { msg := "429", isRateLimit := true } })
      job0 { msg := "429", isRateLimit := true } rfl (fun _ _ => rfl)).1,
   retry_policy_wraps_run_orchestrator.2.2.2.2.2
      (fun _ _ => { job := job0, calls := [], raised := some { msg := "bad", isRateLimit := false } })
      job0 { msg := "bad", isRateLimit := false } rfl (fun _ _ => rfl),
   retry_policy_wraps_run_orchestrator.1 env_rate_limited ctx0 job0⟩

/-! ### Claim C4 — extractor payload: merge or overwrite -/

/-- C4, counterexample.  A successful cv extraction on a job whose
`extractor_payload` already holds a `job_profile` overwrites the whole slot
with `{cv_profile: profile}`: the sibling `job_profile` key is dropped, not
preserved. -/
theorem cv_write_drops_job_profile :
    (({ job0 with extractor_payload := some (.dict [("job_profile", .str "J")]) } : Job).extractor_payload.getD
        .null).get "job_profile" = .str "J"
  ∧ (invoke_extractor env_extractor_ok ctx0
      { job0 with extractor_payload := some (.dict [("job_profile", .str "J")]) }
      "cv" "raw cv text").job.extractor_payload
      = some (.dict [("cv_profile", .dict [("name", .str "Jane Doe")])])
  ∧ ((invoke_extractor env_extractor_ok ctx0
      { job0 with extractor_payload := some (.dict [("job_profile", .str "J")]) }
      "cv" "raw cv text").job.extractor_payload.getD .null).get "job_profile" = .null :=
  ⟨rfl, rfl, rfl⟩

/-- C4, amended.  The two extractor branches are asymmetric: a successful
`job` extraction merges `job_profile` into the stored slot, preserving any
existing `cv_profile`; but a successful `cv` extraction replaces the whole
slot with `{cv_profile: profile}`, dropping any existing `job_profile`. -/
theorem extractor_persistence_spec (env : Env) (ctx : OrchestratorContext)
    (j : Job) (text : String) (kvs : List (String × Val))
    (hslot : j.extractor_payload = some (.dict kvs)) :
    ((((invoke_lambda_agent env "Extractor" EXTRACTOR_FUNCTION
        [("type", .str "job"), ("text", .str text), ("job_id", .str ctx.job_id)]
        ctx.trace_context).1.get "success").truthy = true →
      (invoke_extractor env ctx j "job" text).job.extractor_payload
        = some (.dict (setPairs "job_profile"
            ((invoke_lambda_agent env "Extractor" EXTRACTOR_FUNCTION
              [("type", .str "job"), ("text", .str text), ("job_id", .str ctx.job_id)]
              ctx.trace_context).1.getD "profile" (.dict [])) kvs)))
  ∧ (∀ (kvs2 : List (String × Val)) (p : Val),
      lookupKey "cv_profile" (setPairs "job_profile" p kvs2) = lookupKey "cv_profile" kvs2)
  ∧ ((((invoke_lambda_agent env "Extractor" EXTRACTOR_FUNCTION
        [("type", .str "cv"), ("text", .str text), ("job_id", .str ctx.job_id)]
        ctx.trace_context).1.get "success").truthy = true →
      (invoke_extractor env ctx j "cv" text).job.extractor_payload
        = some (.dict [("cv_profile",
            (invoke_lambda_agent env "Extractor" EXTRACTOR_FUNCTION
              [("type", .str "cv"), ("text", .str text), ("job_id", .str ctx.job_id)]
              ctx.trace_context).1.getD "profile" (.dict []))])))) := by
  refine ⟨?_, ?_, ?_⟩
  · intro hsucc
    unfold invoke_extractor
    rw [if_pos hsucc]
    dsimp only
    rw [if_neg (by decide)]
    dsimp only
    rw [hslot]
    rfl
  · intro kvs2 p
    exact lookupKey_setPairs_ne "job_profile" "cv_profile" p kvs2 rfl
  · intro hsucc
    unfold invoke_extractor
    rw [if_pos hsucc]
    dsimp only
    rw [if_pos]
    rfl

/-- C4, witness: the job branch applied to a slot holding a `cv_profile`
merges and preserves it; the cv branch applied to the same job overwrites. -/
theorem extractor_persistence_spec_witness :
    (invoke_extractor env_extractor_ok ctx0
      { job0 with extractor_payload := some (.dict [("cv_profile", .str "C")]) }
      "job" "raw job text").job.extractor_payload
      = some (.dict (setPairs "job_profile"
          ((invoke_lambda_agent env_extractor_ok "Extractor" EXTRACTOR_FUNCTION
            [("type", .str "job"), ("text", .str "raw job text"), ("job_id", .str ctx0.job_id)]
            ctx0.trace_context).1.getD "profile" (.dict [])) [("cv_profile", .str "C")]))
  ∧ lookupKey "cv_profile" (setPairs "job_profile" (.str "P") [("cv_profile", .str "C")])
      = lookupKey "cv_profile" [("cv_profile", Val.str "C")]
  ∧ (invoke_extractor env_extractor_ok ctx0
      { job0 with extractor_payload := some (.dict [("cv_profile", .str "C")]) }
      "cv" "raw job text").job.extractor_payload
      = some (.dict [("cv_profile",
          (invoke_lambda_agent env_extractor_ok "Extractor" EXTRACTOR_FUNCTION
            [("type", .str "cv"), ("text", .str "raw job text"), ("job_id", .str ctx0.job_id)]
            ctx0.trace_context).1.getD "profile" (.dict []))]) :=
  ⟨(extractor_persistence_spec env_extractor_ok ctx0
      { job0 with extractor_payload := some (.dict [("cv_profile", .str "C")]) }
      "raw job text" [("cv_profile", .str "C")] rfl).1 rfl,
   (extractor_persistence_spec env_extractor_ok ctx0
      { job0 with extractor_payload := some (.dict [("cv_profile", .str "C")]) }
      "raw job text" [("cv_profile", .str "C")] rfl).2.1 [("cv_profile", .str "C")] (.str "P"),
   (extractor_persistence_spec env_extractor_ok ctx0
      { job0 with extractor_payload := some (.dict [("cv_profile", .str "C")]) }
      "raw job text" [("cv_profile", .str "C")] rfl).2.2 rfl⟩

/-! ### Claim C5 — redelivery of a finished job -/

/-- C5, counterexample.  An already-`completed` `full_analysis` job that is
redelivered is re-processed, not skipped: the handler answers 200, the
interviewer is invoked (the empty payload slot triggers the enforcement) and
`interviewer_payload` is written — a specialist invocation and a payload
write after the job had reached a terminal state. -/
theorem terminal_job_is_reprocessed :
    ({ job0 with status := .completed } : Job).status.isTerminal = true
  ∧ (lambda_handler env_interviewer_ok trivialAgent "job-1" none
      (some { job0 with status := .completed })).2.2 = 200
  ∧ (lambda_handler env_interviewer_ok trivialAgent "job-1" none
      (some { job0 with status := .completed })).2.1.map Invocation.agent = ["Interviewer"]
  ∧ (run_orchestrator env_interviewer_ok trivialAgent "job-1" "full_analysis"
      (.dict []) none { job0 with status := .completed }).job.interviewer_payload
      = some interviewerOkResp :=
  ⟨rfl, rfl, rfl, rfl⟩

/-- C5, amended.  Neither the handler nor `run_orchestrator` reads the stored
status: processing a job is entirely independent of it (the first action
overwrites the status with `processing`), so a redelivered terminal job is
re-run exactly like a pending one, and payload slots can be written after a
terminal state; the handler acknowledges in every branch because it never
re-raises. -/
theorem run_orchestrator_status_blind (env : Env) (agentRun : AgentRun)
    (jid jt : String) (inp : Val) (tcx : Option TraceCtx) (j : Job)
    (s1 s2 : JobStatus) :
    run_orchestrator env agentRun jid jt inp tcx { j with status := s1 }
      = run_orchestrator env agentRun jid jt inp tcx { j with status := s2 } := rfl

/-! ### Claim C6 — unknown job kind -/

/-- C6, counterexample.  A job of the unknown kind `make_coffee` whose agent
run returns cleanly: no specialist is invoked, no error is recorded, and the
status becomes `completed` — not `failed` with `error="unknown kind:
make_coffee"`. -/
theorem unknown_kind_completes :
    (run_orchestrator env_interviewer_ok trivialAgent "job-1" "make_coffee"
        (.dict []) none { job0 with job_type := "make_coffee" }).job.status = .completed
  ∧ (run_orchestrator env_interviewer_ok trivialAgent "job-1" "make_coffee"
        (.dict []) none { job0 with job_type := "make_coffee" }).job.error_message = none
  ∧ (run_orchestrator env_interviewer_ok trivialAgent "job-1" "make_coffee"
        (.dict []) none { job0 with job_type := "make_coffee" }).calls = [] :=
  ⟨rfl, rfl, rfl⟩

/-- C6, amended.  For a kind outside the seven known ones, `create_agent`
merely hands the reasoning agent the task text
`Unknown job type: <kind>. Respond with error.`; the control plane itself
invokes no specialist (an agent that calls no tool yields no invocation) and
does not fail the job: whenever the agent run returns without raising, the
job is marked `completed`. -/
theorem unknown_kind_spec (jid jt : String) (inp : Val) (tcx : Option TraceCtx)
    (h : jt ∉ knownKinds) :
    (create_agent jid jt inp tcx).1 = "Unknown job type: " ++ jt ++ ". Respond with error."
  ∧ (∀ (env : Env) (j : Job),
      (run_orchestrator env trivialAgent jid jt inp tcx j).calls = [])
  ∧ (∀ (env : Env) (agentRun : AgentRun) (j : Job),
      (run_orchestrator env agentRun jid jt inp tcx j).raised = none →
      (run_orchestrator env agentRun jid jt inp tcx j).job.status = .completed) := by
  simp only [knownKinds, List.mem_cons, List.mem_singleton, not_or] at h
  obtain ⟨h1, h2, h3, h4, h5, h6, h7⟩ := h
  refine ⟨?_, ?_, ?_⟩
  · unfold create_agent
    dsimp only
    rw [if_neg (by simp [h1]), if_neg (by simp [h2]), if_neg (by simp [h3]),
      if_neg (by simp [h4]), if_neg (by simp [h5]), if_neg (by simp [h6]),
      if_neg (by simp [h7])]
  · intro env j
    unfold run_orchestrator trivialAgent
    dsimp only
    rw [if_neg (by simp [h7])]
  · intro env agentRun j hok
    exact run_orchestrator_ok_completed env agentRun jid jt inp tcx j hok

/-- C6, witness: the amended characterization at the concrete unknown kind
`make_coffee`. -/
theorem unknown_kind_spec_witness :
    (create_agent "job-1" "make_coffee" (.dict []) none).1
      = "Unknown job type: " ++ "make_coffee" ++ ". Respond with error."
  ∧ (run_orchestrator env_interviewer_ok trivialAgent "job-1" "make_coffee"
      (.dict []) none job0).calls = []
  ∧ (run_orchestrator env_interviewer_ok trivialAgent "job-1" "make_coffee"
      (.dict []) none job0).job.status = .completed :=
  ⟨(unknown_kind_spec "job-1" "make_coffee" (.dict []) none (by decide)).1,
   (unknown_kind_spec "job-1" "make_coffee" (.dict []) none (by decide)).2.1
     env_interviewer_ok job0,
   (unknown_kind_spec "job-1" "make_coffee" (.dict []) none (by decide)).2.2
     env_interviewer_ok trivialAgent job0 rfl⟩

/-! ### Claim C7 — timestamp discipline -/

/-- C7, counterexample.  The orchestrator transitions a pending
`full_analysis` job out of `pending` and all the way to `completed`, yet
neither `started_at` nor `completed_at` is ever set: its raw status updates
carry no timestamp. -/
theorem orchestrator_sets_no_timestamps :
    job0.status = .pending
  ∧ (orch_set_processing job0).status = .processing
  ∧ (orch_set_processing job0).started_at = none
  ∧ (run_orchestrator env_interviewer_ok trivialAgent "job-1" "full_analysis"
      (.dict []) none job0).job.status = .completed
  ∧ (run_orchestrator env_interviewer_ok trivialAgent "job-1" "full_analysis"
      (.dict []) none job0).job.started_at = none
  ∧ (run_orchestrator env_interviewer_ok trivialAgent "job-1" "full_analysis"
      (.dict []) none job0).job.completed_at = none :=
  ⟨rfl, rfl, rfl, rfl, rfl, rfl⟩

/-- C7, amended.  The timestamp rule lives in `Jobs.update_status`, which
stamps `started_at` exactly when the target status is `processing` and
`completed_at` exactly when it is terminal — but the orchestrator does not
call it: its raw updates (and the specialist tools and enforcement) leave
both timestamps untouched, so a job driven through `run_orchestrator` keeps
whatever timestamps it had. -/
theorem timestamp_discipline :
    (∀ (now : Nat) (st : JobStatus) (em : Option String) (pr : Option Nat) (j : Job),
      (Jobs.update_status now st em pr j).started_at
          = (if st = .processing then some now else j.started_at)
      ∧ (Jobs.update_status now st em pr j).completed_at
          = (if st = .completed ∨ st = .failed then some now else j.completed_at))
  ∧ (∀ (env : Env) (cs : List ToolCall) (jid jt : String) (inp : Val)
        (tcx : Option TraceCtx) (j : Job),
      (run_orchestrator env (toolAgent env cs) jid jt inp tcx j).job.started_at = j.started_at
      ∧ (run_orchestrator env (toolAgent env cs) jid jt inp tcx j).job.completed_at
          = j.completed_at) := by
  constructor
  · intro now st em pr j
    cases st <;> rcases em with _ | s <;> rcases pr with _ | p <;>
      unfold Jobs.update_status <;> dsimp only <;>
      first
      | exact ⟨rfl, rfl⟩
      | (constructor <;> split <;> rfl)
  · intro env cs jid jt inp tcx j
    have hm1 := runTools_meta env cs (create_agent jid jt inp tcx).2 (orch_set_processing j)
    unfold run_orchestrator toolAgent
    dsimp only
    split
    · have hm2 := ensure_interviewer_called_meta env jid
        (runTools env cs (create_agent jid jt inp tcx).2 (orch_set_processing j)).1
        (runTools env cs (create_agent jid jt inp tcx).2 (orch_set_processing j)).2.1 tcx
      exact ⟨hm2.2.2.2.1.trans hm1.2.2.2.1, hm2.2.2.2.2.trans hm1.2.2.2.2⟩
    · exact ⟨hm1.2.2.2.1, hm1.2.2.2.2⟩

/-! ### Claim C8 — analyzer partial success -/

/-- C8.  When the analyzer's `full_analysis` response has `success=true`,
carries `gap_analysis`, lacks `cv_rewrite` and supplies `cv_rewrite_error`,
the whole response is recorded as-is in `analyzer_payload` — both
`gap_analysis` and `cv_rewrite_error` are readable there — the job's status
and error are untouched by the step, and a plan that continues with the
interviewer completes the job: the condition does not fail it. -/
theorem analyzer_partial_success_recorded (env : Env) (ctx : OrchestratorContext)
    (j : Job) (kvs : List (String × Val)) (gap err : Val)
    (hmock : env.mock = false)
    (hinv : ∀ p : Val, env.invoke ANALYZER_FUNCTION p = .ok (.dict kvs))
    (hbody : lookupKey "body" kvs = none)
    (hsucckey : lookupKey "success" kvs = some (.bool true))
    (hgap : lookupKey "gap_analysis" kvs = some gap)
    (hrw : lookupKey "cv_rewrite" kvs = none)
    (herr : lookupKey "cv_rewrite_error" kvs = some err) :
    (invoke_analyzer env ctx j "full_analysis").job.analyzer_payload = some (.dict kvs)
  ∧ ((invoke_analyzer env ctx j "full_analysis").job.analyzer_payload.getD .null).get
      "gap_analysis" = gap
  ∧ ((invoke_analyzer env ctx j "full_analysis").job.analyzer_payload.getD .null).get
      "cv_rewrite_error" = err
  ∧ (invoke_analyzer env ctx j "full_analysis").job.status = j.status
  ∧ (invoke_analyzer env ctx j "full_analysis").job.error_message = j.error_message
  ∧ (∀ (jid : String) (inp : Val) (tcx : Option TraceCtx) (j0 : Job),
      (run_orchestrator env
          (toolAgent env [ToolCall.analyzer "full_analysis", ToolCall.interviewer])
          jid "full_analysis" inp tcx j0).job.status = .completed
      ∧ "Analyzer" ∈ (run_orchestrator env
          (toolAgent env [ToolCall.analyzer "full_analysis", ToolCall.interviewer])
          jid "full_analysis" inp tcx j0).calls.map Invocation.agent
      ∧ "Interviewer" ∈ (run_orchestrator env
          (toolAgent env [ToolCall.analyzer "full_analysis", ToolCall.interviewer])
          jid "full_analysis" inp tcx j0).calls.map Invocation.agent) := by
  have hres : ∀ (p : List (String × Val)) (tc0 : Option TraceCtx),
      (invoke_lambda_agent env "Analyzer" ANALYZER_FUNCTION p tc0).1 = .dict kvs := by
    intro p tc0
    simp [invoke_lambda_agent, hmock, hinv, decode_response, classify_result, hbody, hsucckey,
      Val.truthy]
  have hstep : ∀ (ctx1 : OrchestratorContext) (j1 : Job),
      (invoke_analyzer env ctx1 j1 "full_analysis").job.analyzer_payload = some (.dict kvs) := by
    intro ctx1 j1
    unfold invoke_analyzer
    dsimp only
    rw [hres]
    rw [if_pos (by simp [Val.get, Val.getD, hsucckey, Val.truthy])]
  refine ⟨hstep ctx j, ?_, ?_, (invoke_analyzer_meta env ctx j "full_analysis").2.1,
    (invoke_analyzer_meta env ctx j "full_analysis").2.2.1, ?_⟩
  · rw [hstep ctx j]
    simp [Val.get, Val.getD, hgap]
  · rw [hstep ctx j]
    simp [Val.get, Val.getD, herr]
  · intro jid inp tcx j0
    have hagents := runTools_agents env
      [ToolCall.analyzer "full_analysis", ToolCall.interviewer]
      (create_agent jid "full_analysis" inp tcx).2 (orch_set_processing j0)
    refine ⟨rfl, ?_, ?_⟩
    · unfold run_orchestrator toolAgent
      dsimp only
      rw [if_pos (by rfl)]
      dsimp only
      rw [List.map_append, hagents]
      exact List.mem_append_left _ (by decide)
    · unfold run_orchestrator toolAgent
      dsimp only
      rw [if_pos (by rfl)]
      dsimp only
      rw [List.map_append, hagents]
      exact List.mem_append_left _ (by decide)

/-- C8, witness: the concrete partial-success response is stored as-is and
the concrete run completes. -/
theorem analyzer_partial_success_recorded_witness :
    (invoke_analyzer env_analyzer_partial ctx0 job0 "full_analysis").job.analyzer_payload
      = some analyzerPartialResp
  ∧ (run_orchestrator env_analyzer_partial
      (toolAgent env_analyzer_partial [ToolCall.analyzer "full_analysis", ToolCall.interviewer])
      "job-1" "full_analysis" (.dict []) none job0).job.status = .completed :=
  ⟨(analyzer_partial_success_recorded env_analyzer_partial ctx0 job0
      [("success", .bool true), ("gap_analysis", .dict [("fit_score", .int 72)]),
       ("cv_rewrite_error", .str "timeout")]
      (.dict [("fit_score", .int 72)]) (.str "timeout")
      rfl (fun _ => rfl) rfl rfl rfl rfl rfl).1,
   ((analyzer_partial_success_recorded env_analyzer_partial ctx0 job0
      [("success", .bool true), ("gap_analysis", .dict [("fit_score", .int 72)]),
       ("cv_rewrite_error", .str "timeout")]
      (.dict [("fit_score", .int 72)]) (.str "timeout")
      rfl (fun _ => rfl) rfl rfl rfl rfl rfl).2.2.2.2.2 "job-1" (.dict []) none job0).1⟩

end CareerAssist
